import Mathlib

/-!
Verification of `services/01_url_pull/main.py` (`YouTubeVideoFetcher`).

The embedding models:
* `_get_date_range` — wall-clock instants as seconds since 1970-01-01T00:00:00,
  the proleptic Gregorian calendar of Python `datetime`, and
  `strftime('%Y-%m-%dT%H:%M:%SZ')` as zero-padded digit strings;
* `fetch_videos` — the pagination loop, run against an explicit script of
  call outcomes (one per `search().list(...).execute()` call), returning the
  list of issued requests together with the accumulated records;
* `_process_video_items` — normalization, with Python `KeyError` on a missing
  required key modelled by `Except Unit`.
-/

set_option maxHeartbeats 1000000
set_option maxRecDepth 8000

namespace VideoPoc

/-- `item['snippet']['thumbnails']['default']`: a thumbnail entry, which may
lack the `url` key. -/
structure ThumbEntry where
  url : Option String
deriving Repr, DecidableEq

/-- `item['snippet']['thumbnails']`: the thumbnail mapping, which may lack the
`default` key. -/
structure ThumbMap where
  default : Option ThumbEntry
deriving Repr, DecidableEq

/-- `item['id']`: may lack the `videoId` key (e.g. non-video results). -/
structure IdObj where
  videoId : Option String
deriving Repr, DecidableEq

/-- `item['snippet']`: each key may be absent in a raw JSON item. -/
structure Snippet where
  title : Option String
  description : Option String
  publishedAt : Option String
  channelTitle : Option String
  thumbnails : Option ThumbMap
deriving Repr, DecidableEq

/-- A raw search-result item as delivered in `response['items']`. -/
structure RawItem where
  id : Option IdObj
  snippet : Option Snippet
deriving Repr, DecidableEq

/-- The normalized record built by `_process_video_items` (one Python dict). -/
structure VideoData where
  video_id : String
  title : String
  description : String
  published_at : String
  channel_title : String
  thumbnail_url : String
  video_url : String
deriving Repr, DecidableEq

/-- Python `d[key]` on an optional field: raises `KeyError` when the key is
absent. -/
def getItem {α : Type} : Option α → Except Unit α
  | none => .error ()
  | some a => .ok a

/-- The body of the loop in `_process_video_items` for a single raw item
(main.py lines 163-173).  Required keys are read with `[...]` (raising on
absence); the default-thumbnail url is read with
`.get('default', {}).get('url', '')`. -/
def processVideoItem (item : RawItem) : Except Unit VideoData := do
  let idObj ← getItem item.id
  let vid ← getItem idObj.videoId
  let snip ← getItem item.snippet
  let titleVal ← getItem snip.title
  let descVal ← getItem snip.description
  let pubVal ← getItem snip.publishedAt
  let chanVal ← getItem snip.channelTitle
  let thumbs ← getItem snip.thumbnails
  pure { video_id := vid
         title := titleVal
         description := descVal
         published_at := pubVal
         channel_title := chanVal
         thumbnail_url := ((thumbs.default.bind ThumbEntry.url).getD "")
         video_url := "https://www.youtube.com/watch?v=" ++ vid }

/-- `_process_video_items` (main.py lines 152-175): processes the items in
order; a `KeyError` raised on any item propagates, discarding the whole
page. -/
def processVideoItems : List RawItem → Except Unit (List VideoData)
  | [] => .ok []
  | item :: rest => do
    let v ← processVideoItem item
    let vs ← processVideoItems rest
    pure (v :: vs)

/-- A successful service response: `items` and `nextPageToken` are both read
with `.get`, so either may be absent (main.py lines 129, 137). -/
structure SearchResponse where
  items : Option (List RawItem)
  nextPageToken : Option String
deriving Repr, DecidableEq

/-- One `search().list(...).execute()` call: a response, or a raised
exception (`HttpError` or any other). -/
abbrev CallResult := Except Unit SearchResponse

/-- The request parameters built on main.py lines 110-123. -/
structure Request where
  part : String
  channelId : String
  publishedAfter : String
  publishedBefore : String
  videoDuration : String
  type : String
  maxResults : Nat
  order : String
  pageToken : Option String
deriving Repr, DecidableEq

/-- Python truthiness of `next_page_token`: both `None` and `""` are falsy
(`if not next_page_token: break`, `if next_page_token:`). -/
def tokenTruthy : Option String → Bool
  | none => false
  | some s => !(s == "")

/-- The request of one loop iteration: fixed filters plus `pageToken` only if
the current token is truthy (main.py lines 110-123). -/
def mkRequest (channel_id published_after published_before : String)
    (max_results_per_page : Nat) (token : Option String) : Request :=
  { part := "snippet"
    channelId := channel_id
    publishedAfter := published_after
    publishedBefore := published_before
    videoDuration := "short"
    type := "video"
    maxResults := max_results_per_page
    order := "date"
    pageToken := if tokenTruthy token then token else none }

/-- The `while True` loop of `fetch_videos` (main.py lines 104-146), consuming
one scripted call outcome per iteration.  Returns the requests issued and the
accumulated `all_videos`.  A raised exception (`HttpError` or a `KeyError`
from `_process_video_items`) hits the `except ... break` arms: the loop stops
and the accumulator so far is kept. -/
def fetchLoop (channel_id published_after published_before : String)
    (max_results_per_page : Nat) :
    List CallResult → Option String → List Request × List VideoData
  | [], _ => ([], [])
  | result :: rest, token =>
    let req := mkRequest channel_id published_after published_before
      max_results_per_page token
    match result with
    | .error _ => ([req], [])
    | .ok resp =>
      match processVideoItems (resp.items.getD []) with
      | .error _ => ([req], [])
      | .ok page =>
        if tokenTruthy resp.nextPageToken then
          let next := fetchLoop channel_id published_after published_before
            max_results_per_page rest resp.nextPageToken
          (req :: next.1, page ++ next.2)
        else
          ([req], page)

/-- The token that the loop state holds after a run of successful pages,
starting from `token`. -/
def lastToken (token : Option String) :
    List (SearchResponse × List VideoData) → Option String
  | [] => token
  | p :: ps => lastToken p.1.nextPageToken ps

/-- The requests issued across a run of successful pages, starting from
`token`. -/
def goodRequests (channel_id published_after published_before : String)
    (max_results_per_page : Nat) (token : Option String) :
    List (SearchResponse × List VideoData) → List Request
  | [] => []
  | p :: ps =>
    mkRequest channel_id published_after published_before max_results_per_page
        token ::
      goodRequests channel_id published_after published_before
        max_results_per_page p.1.nextPageToken ps

/-- Gregorian leap-year rule, as used by Python `datetime`. -/
def isLeap (y : Nat) : Bool :=
  (y % 4 == 0 && y % 100 != 0) || y % 400 == 0

/-- Days in a month of the proleptic Gregorian calendar. -/
def daysInMonth (y m : Nat) : Nat :=
  if m == 2 then (if isLeap y then 29 else 28)
  else if m == 4 || m == 6 || m == 9 || m == 11 then 30
  else 31

/-- A civil (year, month, day) triple. -/
structure Date where
  year : Nat
  month : Nat
  day : Nat
deriving Repr, DecidableEq

/-- The civil successor of a date. -/
def nextDay (c : Date) : Date :=
  if c.day < daysInMonth c.year c.month then ⟨c.year, c.month, c.day + 1⟩
  else if c.month < 12 then ⟨c.year, c.month + 1, 1⟩
  else ⟨c.year + 1, 1, 1⟩

/-- The civil date `n` days after 1970-01-01: the calendar mapping Python
`datetime` applies to a timestamp's day count. -/
def dateOfDays : Nat → Date
  | 0 => ⟨1970, 1, 1⟩
  | n + 1 => nextDay (dateOfDays n)

/-- Calendar date of an instant `t`, in seconds since 1970-01-01T00:00:00. -/
def dateOf (t : Nat) : Date := dateOfDays (t / 86400)

/-- Hour-of-day field of an instant. -/
def hourOf (t : Nat) : Nat := t % 86400 / 3600

/-- Minute field of an instant. -/
def minuteOf (t : Nat) : Nat := t % 3600 / 60

/-- Second field of an instant. -/
def secondOf (t : Nat) : Nat := t % 60

/-- Zero-padded decimal digits of `n`, field width `k`, most significant
first. -/
def natDigits : Nat → Nat → List Char
  | 0, _ => []
  | k + 1, n => Nat.digitChar (n / 10 ^ k) :: natDigits k (n % 10 ^ k)

/-- A number rendered in a fixed-width zero-padded decimal field, as
`strftime` renders `%Y`, `%m`, `%d`, `%H`, `%M`, `%S`. -/
def padNum (k n : Nat) : String := ⟨natDigits k n⟩

/-- The layout of the format string `'%Y-%m-%dT%H:%M:%SZ'` over already
extracted calendar fields. -/
def fmtFields (y m d h mi s : Nat) : String :=
  padNum 4 y ++ "-" ++ padNum 2 m ++ "-" ++ padNum 2 d ++ "T" ++
    padNum 2 h ++ ":" ++ padNum 2 mi ++ ":" ++ padNum 2 s ++ "Z"

/-- `strftime('%Y-%m-%dT%H:%M:%SZ')` applied to the instant `t`. -/
def formatTimestamp (t : Nat) : String :=
  fmtFields (dateOf t).year (dateOf t).month (dateOf t).day
    (hourOf t) (minuteOf t) (secondOf t)

/-- `_get_date_range` (main.py lines 68-81), with the wall clock passed
explicitly: `today = now`, `one_year_ago = today - timedelta(days=365)`,
both rendered by `strftime('%Y-%m-%dT%H:%M:%SZ')`; returns
`(published_after, published_before)`. -/
def get_date_range (now : Nat) : String × String :=
  (formatTimestamp (now - 365 * 86400), formatTimestamp now)

/-- `fetch_videos` (main.py lines 83-150), with the wall clock and the script
of service call outcomes passed explicitly.  Returns the issued requests and
the accumulated records. -/
def fetch_videos (now : Nat) (channel_id : String) (max_results_per_page : Nat)
    (service : List CallResult) : List Request × List VideoData :=
  fetchLoop channel_id (get_date_range now).1 (get_date_range now).2
    max_results_per_page service none

/-- A date is valid when its month and day lie in calendar range. -/
def ValidDate (c : Date) : Prop :=
  1 ≤ c.month ∧ c.month ≤ 12 ∧ 1 ≤ c.day ∧ c.day ≤ daysInMonth c.year c.month

/-- Numeric key whose order agrees with calendar order on valid dates. -/
def dateKey (c : Date) : Nat := c.year * 10000 + c.month * 100 + c.day

/-- A fully populated raw item, used to instantiate theorems on concrete
inputs. -/
def sampleItem : RawItem :=
  { id := some { videoId := some "abc123" }
    snippet := some
      { title := some "Title"
        description := some "Desc"
        publishedAt := some "2025-01-01T00:00:00Z"
        channelTitle := some "Chan"
        thumbnails := some { default := some { url := some "http://th" } } } }

/-- The normalized record of `sampleItem`. -/
def sampleVideo : VideoData :=
  { video_id := "abc123"
    title := "Title"
    description := "Desc"
    published_at := "2025-01-01T00:00:00Z"
    channel_title := "Chan"
    thumbnail_url := "http://th"
    video_url := "https://www.youtube.com/watch?v=abc123" }

/-- A raw item whose required key `snippet.title` is absent. -/
def badItem : RawItem :=
  { id := some { videoId := some "bad" }
    snippet := some
      { title := none
        description := some "Desc"
        publishedAt := some "2025-01-01T00:00:00Z"
        channelTitle := some "Chan"
        thumbnails := some { default := none } } }

/-! ### Helper lemmas about the pagination loop -/

/-- A failed call produces one final request and stops with nothing added. -/
theorem fetchLoop_error (cid pa pb : String) (m : Nat) (e : Unit)
    (rest : List CallResult) (token : Option String) :
    fetchLoop cid pa pb m (.error e :: rest) token =
      ([mkRequest cid pa pb m token], []) := rfl

/-- A successful call whose page fails to normalize produces one final
request and stops with nothing added. -/
theorem fetchLoop_processing_error (cid pa pb : String) (m : Nat)
    (r : SearchResponse) (rest : List CallResult) (token : Option String)
    (h : processVideoItems (r.items.getD []) = .error ()) :
    fetchLoop cid pa pb m (.ok r :: rest) token =
      ([mkRequest cid pa pb m token], []) := by
  simp [fetchLoop, h]

/-- A successful call with a falsy continuation token ends the loop with the
page's records. -/
theorem fetchLoop_last (cid pa pb : String) (m : Nat) (r : SearchResponse)
    (page : List VideoData) (rest : List CallResult) (token : Option String)
    (h : tokenTruthy r.nextPageToken = false)
    (hp : processVideoItems (r.items.getD []) = .ok page) :
    fetchLoop cid pa pb m (.ok r :: rest) token =
      ([mkRequest cid pa pb m token], page) := by
  simp [fetchLoop, h, hp]

/-- Unrolling the loop across a run of successful pages whose tokens are all
truthy: the run's requests and records are followed by whatever the rest of
the script produces from the run's final token. -/
theorem fetchLoop_goodRun (cid pa pb : String) (m : Nat)
    (good : List (SearchResponse × List VideoData)) (tail : List CallResult)
    (token : Option String)
    (h : ∀ p ∈ good, tokenTruthy p.1.nextPageToken = true ∧
      processVideoItems (p.1.items.getD []) = .ok p.2) :
    fetchLoop cid pa pb m (good.map (fun p => Except.ok p.1) ++ tail) token =
      (goodRequests cid pa pb m token good ++
        (fetchLoop cid pa pb m tail (lastToken token good)).1,
       (good.map Prod.snd).flatten ++
        (fetchLoop cid pa pb m tail (lastToken token good)).2) := by
  induction good generalizing token with
  | nil => simp [goodRequests, lastToken]
  | cons p ps ih =>
    obtain ⟨ht, hp⟩ := h p (List.mem_cons_self p ps)
    have hrest := ih p.1.nextPageToken
      (fun q hq => h q (List.mem_cons_of_mem _ hq))
    simp [fetchLoop, goodRequests, lastToken, hp, ht, hrest, List.append_assoc]

/-- The requests of a good run are one per page. -/
theorem goodRequests_length (cid pa pb : String) (m : Nat)
    (good : List (SearchResponse × List VideoData)) (token : Option String) :
    (goodRequests cid pa pb m token good).length = good.length := by
  induction good generalizing token with
  | nil => rfl
  | cons p ps ih => simp [goodRequests, ih]

/-- `mkRequest` never emits an empty-string page token: a falsy token is
dropped from the request parameters. -/
theorem mkRequest_pageToken_ne_empty (cid pa pb : String) (m : Nat)
    (token : Option String) : (mkRequest cid pa pb m token).pageToken ≠ some "" := by
  cases token with
  | none => simp [mkRequest, tokenTruthy]
  | some s =>
    by_cases hs : s = "" <;> simp [mkRequest, tokenTruthy, hs]

/-- Every request the loop issues is an `mkRequest` for some token. -/
theorem fetchLoop_requests (cid pa pb : String) (m : Nat)
    (script : List CallResult) (token : Option String) :
    ∀ req ∈ (fetchLoop cid pa pb m script token).1,
      ∃ tk, req = mkRequest cid pa pb m tk := by
  induction script generalizing token with
  | nil => simp [fetchLoop]
  | cons c rest ih =>
    cases c with
    | error e =>
      intro req hreq
      simp [fetchLoop] at hreq
      exact ⟨token, hreq⟩
    | ok r =>
      cases hp : processVideoItems (r.items.getD []) with
      | error e =>
        intro req hreq
        simp [fetchLoop, hp] at hreq
        exact ⟨token, hreq⟩
      | ok page =>
        cases htt : tokenTruthy r.nextPageToken with
        | false =>
          intro req hreq
          simp [fetchLoop, hp, htt] at hreq
          exact ⟨token, hreq⟩
        | true =>
          intro req hreq
          simp [fetchLoop, hp, htt] at hreq
          rcases hreq with h1 | h2
          · exact ⟨token, h1⟩
          · exact ih r.nextPageToken req h2

/-! ### Helper lemmas about normalization -/

/-- Normalization of an item with every required key present computes to the
expected record. -/
theorem processVideoItem_ok (item : RawItem) (io : IdObj) (vid : String)
    (sn : Snippet) (ti de pu ch : String) (th : ThumbMap)
    (hid : item.id = some io) (hvid : io.videoId = some vid)
    (hsn : item.snippet = some sn) (hti : sn.title = some ti)
    (hde : sn.description = some de) (hpu : sn.publishedAt = some pu)
    (hch : sn.channelTitle = some ch) (hth : sn.thumbnails = some th) :
    processVideoItem item = .ok
      { video_id := vid
        title := ti
        description := de
        published_at := pu
        channel_title := ch
        thumbnail_url := (th.default.bind ThumbEntry.url).getD ""
        video_url := "https://www.youtube.com/watch?v=" ++ vid } := by
  simp [processVideoItem, getItem, hid, hvid, hsn, hti, hde, hpu, hch, hth,
    Except.instMonad, Except.bind, Except.map, Except.pure]

/-- Inversion: any successfully normalized record carries the watch URL
derived from its own video identifier, which is the item's `id.videoId`. -/
theorem processVideoItem_shape (item : RawItem) (v : VideoData)
    (hok : processVideoItem item = .ok v) :
    item.id.bind IdObj.videoId = some v.video_id ∧
    v.video_url = "https://www.youtube.com/watch?v=" ++ v.video_id := by
  rcases item with ⟨oid, osn⟩
  rcases oid with _ | io
  · simp [processVideoItem, getItem, Except.instMonad, Except.bind] at hok
  rcases io with ⟨ovid⟩
  rcases ovid with _ | vid
  · simp [processVideoItem, getItem, Except.instMonad, Except.bind] at hok
  rcases osn with _ | sn
  · simp [processVideoItem, getItem, Except.instMonad, Except.bind] at hok
  rcases sn with ⟨oti, ode, opu, och, oth⟩
  rcases oti with _ | ti
  · simp [processVideoItem, getItem, Except.instMonad, Except.bind] at hok
  rcases ode with _ | de
  · simp [processVideoItem, getItem, Except.instMonad, Except.bind] at hok
  rcases opu with _ | pu
  · simp [processVideoItem, getItem, Except.instMonad, Except.bind] at hok
  rcases och with _ | ch
  · simp [processVideoItem, getItem, Except.instMonad, Except.bind] at hok
  rcases oth with _ | th
  · simp [processVideoItem, getItem, Except.instMonad, Except.bind,
      Except.map] at hok
  have hr : processVideoItem
      { id := some { videoId := some vid }
        snippet := some
          { title := some ti, description := some de, publishedAt := some pu,
            channelTitle := some ch, thumbnails := some th } } = .ok
      { video_id := vid
        title := ti
        description := de
        published_at := pu
        channel_title := ch
        thumbnail_url := (th.default.bind ThumbEntry.url).getD ""
        video_url := "https://www.youtube.com/watch?v=" ++ vid } := rfl
  rw [hr] at hok
  cases Except.ok.inj hok
  simp

/-- A page containing an item that fails to normalize fails as a whole,
regardless of the items around it. -/
theorem processVideoItems_error (pre post : List RawItem) (bad : RawItem)
    (hbad : processVideoItem bad = .error ()) :
    processVideoItems (pre ++ bad :: post) = .error () := by
  induction pre with
  | nil => simp [processVideoItems, hbad, Except.instMonad, Except.bind]
  | cons q qs ih =>
    cases hq : processVideoItem q with
    | error e => simp [processVideoItems, hq, Except.instMonad, Except.bind]
    | ok v =>
      simp [processVideoItems, hq, ih, Except.instMonad, Except.bind,
        Except.map]

/-! ### Helper lemmas about the calendar and the wire timestamp format -/

/-- Every month has at most 31 days. -/
theorem daysInMonth_le (y m : Nat) : daysInMonth y m ≤ 31 := by
  unfold daysInMonth
  split
  · split <;> omega
  · split <;> omega

/-- Every month has at least one day. -/
theorem daysInMonth_pos (y m : Nat) : 1 ≤ daysInMonth y m := by
  unfold daysInMonth
  split
  · split <;> omega
  · split <;> omega

/-- Stepping one day preserves calendar validity. -/
theorem validDate_nextDay (c : Date) (h : ValidDate c) :
    ValidDate (nextDay c) := by
  obtain ⟨h1, h2, h3, h4⟩ := h
  unfold nextDay
  split
  next hd =>
    unfold ValidDate
    simp only []
    omega
  next hd =>
    split
    next hm =>
      unfold ValidDate
      simp only []
      have := daysInMonth_pos c.year (c.month + 1)
      omega
    next hm =>
      unfold ValidDate
      simp only []
      have := daysInMonth_pos (c.year + 1) 1
      omega

/-- Every day count maps to a valid civil date. -/
theorem validDate_dateOfDays (n : Nat) : ValidDate (dateOfDays n) := by
  induction n with
  | zero => exact ⟨by decide, by decide, by decide, by decide⟩
  | succ k ih => exact validDate_nextDay _ ih

/-- Stepping one day strictly increases the date key. -/
theorem dateKey_lt_nextDay (c : Date) (h : ValidDate c) :
    dateKey c < dateKey (nextDay c) := by
  obtain ⟨h1, h2, h3, h4⟩ := h
  have hle := daysInMonth_le c.year c.month
  unfold nextDay dateKey
  split
  next hd => simp only [] ; omega
  next hd =>
    split
    next hm => simp only [] ; omega
    next hm => simp only [] ; omega

/-- The date key of the civil date is strictly monotone in the day count. -/
theorem dateKey_strictMono : StrictMono (fun n => dateKey (dateOfDays n)) :=
  strictMono_nat_of_lt_succ fun n =>
    dateKey_lt_nextDay (dateOfDays n) (validDate_dateOfDays n)

/-- A date-key inequality between valid dates orders their fields
lexicographically. -/
theorem date_lex_of_key_lt (c₁ c₂ : Date) (h₁ : ValidDate c₁)
    (h₂ : ValidDate c₂) (hk : dateKey c₁ < dateKey c₂) :
    c₁.year < c₂.year ∨ (c₁.year = c₂.year ∧ (c₁.month < c₂.month ∨
      (c₁.month = c₂.month ∧ c₁.day < c₂.day))) := by
  obtain ⟨a1, a2, a3, a4⟩ := h₁
  obtain ⟨b1, b2, b3, b4⟩ := h₂
  have ha := daysInMonth_le c₁.year c₁.month
  have hb := daysInMonth_le c₂.year c₂.month
  unfold dateKey at hk
  omega

/-- An instant inequality orders the day count and the time-of-day fields
lexicographically. -/
theorem timestamp_lex (t₁ t₂ : Nat) (h : t₁ < t₂) :
    t₁ / 86400 < t₂ / 86400 ∨ (t₁ / 86400 = t₂ / 86400 ∧
      (hourOf t₁ < hourOf t₂ ∨ (hourOf t₁ = hourOf t₂ ∧
        (minuteOf t₁ < minuteOf t₂ ∨ (minuteOf t₁ = minuteOf t₂ ∧
          secondOf t₁ < secondOf t₂))))) := by
  unfold hourOf minuteOf secondOf
  omega

/-- Decimal digit characters compare like the digits they encode. -/
theorem digitChar_lt (a b : Nat) (hab : a < b) (hb : b < 10) :
    Nat.digitChar a < Nat.digitChar b := by
  interval_cases b <;> interval_cases a <;> decide

/-- A zero-padded field has exactly its width. -/
theorem natDigits_length (k n : Nat) : (natDigits k n).length = k := by
  induction k generalizing n with
  | zero => rfl
  | succ j ih => simp [natDigits, ih]

/-- Equal-width zero-padded digit fields compare lexicographically like the
numbers they encode. -/
theorem natDigits_lex (k a b : Nat) (hab : a < b) (hb : b < 10 ^ k) :
    List.Lex (· < ·) (natDigits k a) (natDigits k b) := by
  induction k generalizing a b with
  | zero => exact absurd hab (by omega)
  | succ j ih =>
    have hbq : b / 10 ^ j < 10 := by
      apply Nat.div_lt_of_lt_mul
      rw [← pow_succ]
      exact hb
    have hq : a / 10 ^ j ≤ b / 10 ^ j := Nat.div_le_div_right (le_of_lt hab)
    rcases lt_or_eq_of_le hq with hlt | heq
    · exact List.Lex.rel (digitChar_lt _ _ hlt hbq)
    · simp only [natDigits]
      rw [heq]
      have e₁ := Nat.div_add_mod a (10 ^ j)
      have e₂ := Nat.div_add_mod b (10 ^ j)
      rw [heq] at e₁
      have hmod : a % 10 ^ j < b % 10 ^ j := by omega
      exact List.Lex.cons (ih _ _ hmod (Nat.mod_lt _ (by positivity)))

/-- Lexicographic comparison is stable under a common prefix. -/
theorem list_lex_append_left (p t₁ t₂ : List Char)
    (h : List.Lex (· < ·) t₁ t₂) :
    List.Lex (· < ·) (p ++ t₁) (p ++ t₂) := by
  induction p with
  | nil => exact h
  | cons c cs ih => exact List.Lex.cons ih

/-- Lexicographic comparison of equal-length segments decides the comparison
of any continuations. -/
theorem list_lex_append (x y r₁ r₂ : List Char) (h : List.Lex (· < ·) x y)
    (hlen : x.length = y.length) :
    List.Lex (· < ·) (x ++ r₁) (y ++ r₂) := by
  induction h with
  | nil => simp at hlen
  | cons h ih => exact List.Lex.cons (ih (by simpa using hlen))
  | rel hr => exact List.Lex.rel hr

/-- Comparison at one digit field: common prefix, then an equal-width field
with a strictly smaller value. -/
theorem seg_lex (p : List Char) (k a b : Nat) (r₁ r₂ : List Char)
    (hab : a < b) (hb : b < 10 ^ k) :
    List.Lex (· < ·) (p ++ (natDigits k a ++ r₁)) (p ++ (natDigits k b ++ r₂)) :=
  list_lex_append_left _ _ _ (list_lex_append _ _ _ _
    (natDigits_lex k a b hab hb)
    (by rw [natDigits_length, natDigits_length]))

/-- The year grows by at most one per day stepped. -/
theorem dateOfDays_year_le (n : Nat) : (dateOfDays n).year ≤ 1970 + n := by
  induction n with
  | zero => exact Nat.le_refl 1970
  | succ k ih =>
    have hstep : (nextDay (dateOfDays k)).year ≤ (dateOfDays k).year + 1 := by
      unfold nextDay
      split
      · simp only []
        omega
      · split <;> (simp only []; omega)
    calc (dateOfDays (k + 1)).year = (nextDay (dateOfDays k)).year := rfl
      _ ≤ (dateOfDays k).year + 1 := hstep
      _ ≤ 1970 + (k + 1) := by omega

/-- The character data underlying a formatted timestamp. -/
theorem fmtFields_toList (y m d h mi s : Nat) :
    (fmtFields y m d h mi s).toList =
      natDigits 4 y ++ ('-' :: (natDigits 2 m ++ ('-' :: (natDigits 2 d ++
        ('T' :: (natDigits 2 h ++ (':' :: (natDigits 2 mi ++
          (':' :: (natDigits 2 s ++ ['Z'])))))))))) := by
  simp [fmtFields, padNum, String.toList, String.data_append]

/-- Formatted timestamps with in-range fields compare lexicographically like
their field tuples. -/
theorem fmtFields_lt (y₁ m₁ d₁ h₁ mi₁ s₁ y₂ m₂ d₂ h₂ mi₂ s₂ : Nat)
    (hy : y₂ < 10000) (hm : m₂ < 100) (hd : d₂ < 100) (hh : h₂ < 100)
    (hmi : mi₂ < 100) (hs : s₂ < 100)
    (hlex : y₁ < y₂ ∨ (y₁ = y₂ ∧ (m₁ < m₂ ∨ (m₁ = m₂ ∧ (d₁ < d₂ ∨ (d₁ = d₂ ∧
      (h₁ < h₂ ∨ (h₁ = h₂ ∧ (mi₁ < mi₂ ∨ (mi₁ = mi₂ ∧ s₁ < s₂)))))))))) :
    fmtFields y₁ m₁ d₁ h₁ mi₁ s₁ < fmtFields y₂ m₂ d₂ h₂ mi₂ s₂ := by
  rw [String.lt_iff_toList_lt, fmtFields_toList, fmtFields_toList]
  rcases hlex with hlt | ⟨rfl, hlt | ⟨rfl, hlt | ⟨rfl, hlt | ⟨rfl, hlt |
    ⟨rfl, hlt⟩⟩⟩⟩⟩
  · have T := seg_lex [] 4 y₁ y₂
      ('-' :: (natDigits 2 m₁ ++ ('-' :: (natDigits 2 d₁ ++
        ('T' :: (natDigits 2 h₁ ++ (':' :: (natDigits 2 mi₁ ++
          (':' :: (natDigits 2 s₁ ++ ['Z']))))))))))
      ('-' :: (natDigits 2 m₂ ++ ('-' :: (natDigits 2 d₂ ++
        ('T' :: (natDigits 2 h₂ ++ (':' :: (natDigits 2 mi₂ ++
          (':' :: (natDigits 2 s₂ ++ ['Z']))))))))))
      hlt (by omega)
    simpa [List.append_assoc] using T
  · have T := seg_lex (natDigits 4 y₁ ++ ['-']) 2 m₁ m₂
      ('-' :: (natDigits 2 d₁ ++ ('T' :: (natDigits 2 h₁ ++
        (':' :: (natDigits 2 mi₁ ++ (':' :: (natDigits 2 s₁ ++ ['Z']))))))))
      ('-' :: (natDigits 2 d₂ ++ ('T' :: (natDigits 2 h₂ ++
        (':' :: (natDigits 2 mi₂ ++ (':' :: (natDigits 2 s₂ ++ ['Z']))))))))
      hlt (by omega)
    simpa [List.append_assoc] using T
  · have T := seg_lex
      (natDigits 4 y₁ ++ ('-' :: (natDigits 2 m₁ ++ ['-']))) 2 d₁ d₂
      ('T' :: (natDigits 2 h₁ ++
        (':' :: (natDigits 2 mi₁ ++ (':' :: (natDigits 2 s₁ ++ ['Z']))))))
      ('T' :: (natDigits 2 h₂ ++
        (':' :: (natDigits 2 mi₂ ++ (':' :: (natDigits 2 s₂ ++ ['Z']))))))
      hlt (by omega)
    simpa [List.append_assoc] using T
  · have T := seg_lex
      (natDigits 4 y₁ ++ ('-' :: (natDigits 2 m₁ ++
        ('-' :: (natDigits 2 d₁ ++ ['T']))))) 2 h₁ h₂
      (':' :: (natDigits 2 mi₁ ++ (':' :: (natDigits 2 s₁ ++ ['Z']))))
      (':' :: (natDigits 2 mi₂ ++ (':' :: (natDigits 2 s₂ ++ ['Z']))))
      hlt (by omega)
    simpa [List.append_assoc] using T
  · have T := seg_lex
      (natDigits 4 y₁ ++ ('-' :: (natDigits 2 m₁ ++
        ('-' :: (natDigits 2 d₁ ++ ('T' :: (natDigits 2 h₁ ++ [':'])))))))
      2 mi₁ mi₂
      (':' :: (natDigits 2 s₁ ++ ['Z']))
      (':' :: (natDigits 2 s₂ ++ ['Z']))
      hlt (by omega)
    simpa [List.append_assoc] using T
  · have T := seg_lex
      (natDigits 4 y₁ ++ ('-' :: (natDigits 2 m₁ ++
        ('-' :: (natDigits 2 d₁ ++ ('T' :: (natDigits 2 h₁ ++
          (':' :: (natDigits 2 mi₁ ++ [':'])))))))))
      2 s₁ s₂ ['Z'] ['Z'] hlt (by omega)
    simpa [List.append_assoc] using T

/-- The wire format orders instants chronologically: a strictly earlier
instant formats to a lexicographically smaller string (years up to 9999). -/
theorem formatTimestamp_lt (t₁ t₂ : Nat) (h : t₁ < t₂)
    (hy : (dateOf t₂).year ≤ 9999) :
    formatTimestamp t₁ < formatTimestamp t₂ := by
  have hv₁ : ValidDate (dateOf t₁) := validDate_dateOfDays (t₁ / 86400)
  have hv₂ : ValidDate (dateOf t₂) := validDate_dateOfDays (t₂ / 86400)
  have hb₂ := daysInMonth_le (dateOf t₂).year (dateOf t₂).month
  obtain ⟨b1, b2, b3, b4⟩ := hv₂
  have hv₂' : ValidDate (dateOf t₂) := ⟨b1, b2, b3, b4⟩
  have hlex : (dateOf t₁).year < (dateOf t₂).year ∨
      ((dateOf t₁).year = (dateOf t₂).year ∧
        ((dateOf t₁).month < (dateOf t₂).month ∨
          ((dateOf t₁).month = (dateOf t₂).month ∧
            ((dateOf t₁).day < (dateOf t₂).day ∨
              ((dateOf t₁).day = (dateOf t₂).day ∧
                (hourOf t₁ < hourOf t₂ ∨ (hourOf t₁ = hourOf t₂ ∧
                  (minuteOf t₁ < minuteOf t₂ ∨ (minuteOf t₁ = minuteOf t₂ ∧
                    secondOf t₁ < secondOf t₂))))))))) := by
    rcases timestamp_lex t₁ t₂ h with hdays | ⟨hdeq, htod⟩
    · have hk : dateKey (dateOf t₁) < dateKey (dateOf t₂) :=
        dateKey_strictMono hdays
      rcases date_lex_of_key_lt _ _ hv₁ hv₂' hk with hy' | ⟨hye, hm' | ⟨hme, hd'⟩⟩
      · exact Or.inl hy'
      · exact Or.inr ⟨hye, Or.inl hm'⟩
      · exact Or.inr ⟨hye, Or.inr ⟨hme, Or.inl hd'⟩⟩
    · have hde : dateOf t₁ = dateOf t₂ := by unfold dateOf; rw [hdeq]
      refine Or.inr ⟨by rw [hde], Or.inr ⟨by rw [hde], Or.inr ⟨by rw [hde], ?_⟩⟩⟩
      rcases htod with h1 | ⟨h1e, h2 | ⟨h2e, h3⟩⟩
      · exact Or.inl h1
      · exact Or.inr ⟨h1e, Or.inl h2⟩
      · exact Or.inr ⟨h1e, Or.inr ⟨h2e, h3⟩⟩
  have hh₂ : hourOf t₂ < 100 := by unfold hourOf; omega
  have hmi₂ : minuteOf t₂ < 100 := by unfold minuteOf; omega
  have hs₂ : secondOf t₂ < 100 := by unfold secondOf; omega
  unfold formatTimestamp
  exact fmtFields_lt _ _ _ _ _ _ _ _ _ _ _ _
    (by omega) (by omega) (by omega) hh₂ hmi₂ hs₂ hlex

/-! ### Claim theorems -/

/-- C1: For every channel id and page size, if the page-`k` request fails
(transport failure or service-reported error, both landing in the `except`
arms of the loop), `fetch_videos` terminates pagination immediately — exactly
`k` requests are issued — and returns the records accumulated from pages 1
through `k-1`.  The failure is absorbed by the loop's `break`: the function
returns normally, with no exception or failure signal in its result type. -/
theorem fetch_videos_fail_soft (now : Nat) (channel_id : String)
    (max_results_per_page : Nat)
    (good : List (SearchResponse × List VideoData)) (e : Unit)
    (rest : List CallResult)
    (h : ∀ p ∈ good, tokenTruthy p.1.nextPageToken = true ∧
      processVideoItems (p.1.items.getD []) = .ok p.2) :
    (fetch_videos now channel_id max_results_per_page
        (good.map (fun p => Except.ok p.1) ++ .error e :: rest)).2 =
      (good.map Prod.snd).flatten ∧
    (fetch_videos now channel_id max_results_per_page
        (good.map (fun p => Except.ok p.1) ++ .error e :: rest)).1.length =
      good.length + 1 := by
  unfold fetch_videos
  rw [fetchLoop_goodRun _ _ _ _ _ _ _ h]
  simp [fetchLoop_error, goodRequests_length]

/-- Witness for C1: one successful page, then a failed request; the single
page's record survives and exactly two requests were issued. -/
theorem fetch_videos_fail_soft_witness :
    (fetch_videos 0 "chan" 50
        [Except.ok { items := some [sampleItem], nextPageToken := some "t1" },
         Except.error ()]).2 = [sampleVideo] ∧
    (fetch_videos 0 "chan" 50
        [Except.ok { items := some [sampleItem], nextPageToken := some "t1" },
         Except.error ()]).1.length = 2 := by
  have h := fetch_videos_fail_soft 0 "chan" 50
    [({ items := some [sampleItem], nextPageToken := some "t1" },
      [sampleVideo])] () []
    (by
      intro p hp
      rw [List.mem_singleton] at hp
      subst hp
      exact ⟨rfl, rfl⟩)
  simpa using h

/-- C2: With a script whose cursor tokens are `t₁`, `t₂`, then absent across
three successful calls, `fetch_videos` issues exactly three requests — the
first carrying no cursor, each subsequent one carrying the cursor of the
previous response — and returns the three pages' normalized records
concatenated in request order, each page in its original order (no
re-sorting). -/
theorem fetch_videos_three_pages (now : Nat) (channel_id : String)
    (max_results_per_page : Nat) (r₁ r₂ r₃ : SearchResponse) (t₁ t₂ : String)
    (p₁ p₂ p₃ : List VideoData)
    (h₁ : r₁.nextPageToken = some t₁) (ht₁ : t₁ ≠ "")
    (h₂ : r₂.nextPageToken = some t₂) (ht₂ : t₂ ≠ "")
    (h₃ : r₃.nextPageToken = none)
    (hp₁ : processVideoItems (r₁.items.getD []) = .ok p₁)
    (hp₂ : processVideoItems (r₂.items.getD []) = .ok p₂)
    (hp₃ : processVideoItems (r₃.items.getD []) = .ok p₃) :
    fetch_videos now channel_id max_results_per_page
        [.ok r₁, .ok r₂, .ok r₃] =
      ([mkRequest channel_id (get_date_range now).1 (get_date_range now).2
          max_results_per_page none,
        mkRequest channel_id (get_date_range now).1 (get_date_range now).2
          max_results_per_page (some t₁),
        mkRequest channel_id (get_date_range now).1 (get_date_range now).2
          max_results_per_page (some t₂)],
       p₁ ++ p₂ ++ p₃) ∧
    (fetch_videos now channel_id max_results_per_page
        [.ok r₁, .ok r₂, .ok r₃]).1.map Request.pageToken =
      [none, some t₁, some t₂] := by
  have htt₁ : tokenTruthy (some t₁) = true := by simp [tokenTruthy, ht₁]
  have htt₂ : tokenTruthy (some t₂) = true := by simp [tokenTruthy, ht₂]
  have htt₃ : tokenTruthy (none : Option String) = false := rfl
  have hmain : fetch_videos now channel_id max_results_per_page
      [.ok r₁, .ok r₂, .ok r₃] =
      ([mkRequest channel_id (get_date_range now).1 (get_date_range now).2
          max_results_per_page none,
        mkRequest channel_id (get_date_range now).1 (get_date_range now).2
          max_results_per_page (some t₁),
        mkRequest channel_id (get_date_range now).1 (get_date_range now).2
          max_results_per_page (some t₂)],
       p₁ ++ p₂ ++ p₃) := by
    unfold fetch_videos
    simp [fetchLoop, hp₁, hp₂, hp₃, htt₁, htt₂, htt₃, h₁, h₂, h₃,
      List.append_assoc]
  refine ⟨hmain, ?_⟩
  rw [hmain]
  simp [mkRequest, tokenTruthy, ht₁, ht₂]

/-- Witness for C2: three concrete pages with tokens `"t1"`, `"t2"`, none. -/
theorem fetch_videos_three_pages_witness :
    fetch_videos 0 "chan" 50
        [Except.ok { items := some [sampleItem], nextPageToken := some "t1" },
         Except.ok { items := some [], nextPageToken := some "t2" },
         Except.ok { items := some [sampleItem], nextPageToken := none }] =
      ([mkRequest "chan" (get_date_range 0).1 (get_date_range 0).2 50 none,
        mkRequest "chan" (get_date_range 0).1 (get_date_range 0).2 50
          (some "t1"),
        mkRequest "chan" (get_date_range 0).1 (get_date_range 0).2 50
          (some "t2")],
       [sampleVideo] ++ [] ++ [sampleVideo]) ∧
    (fetch_videos 0 "chan" 50
        [Except.ok { items := some [sampleItem], nextPageToken := some "t1" },
         Except.ok { items := some [], nextPageToken := some "t2" },
         Except.ok { items := some [sampleItem], nextPageToken := none }]).1.map
      Request.pageToken = [none, some "t1", some "t2"] :=
  fetch_videos_three_pages 0 "chan" 50
    { items := some [sampleItem], nextPageToken := some "t1" }
    { items := some [], nextPageToken := some "t2" }
    { items := some [sampleItem], nextPageToken := none }
    "t1" "t2" [sampleVideo] [] [sampleVideo]
    rfl (by decide) rfl (by decide) rfl rfl rfl rfl

/-- C5: A first response with zero items and no continuation cursor yields
the empty sequence after exactly one request; the run ends in the normal
success path, an empty result being a valid terminal state distinct from
failure. -/
theorem fetch_videos_empty_channel (now : Nat) (channel_id : String)
    (max_results_per_page : Nat) (r : SearchResponse)
    (hitems : r.items = some []) (htok : r.nextPageToken = none) :
    fetch_videos now channel_id max_results_per_page [.ok r] =
      ([mkRequest channel_id (get_date_range now).1 (get_date_range now).2
          max_results_per_page none], []) := by
  unfold fetch_videos
  simp [fetchLoop, hitems, htok, tokenTruthy, processVideoItems]

/-- Witness for C5: the concrete empty first page. -/
theorem fetch_videos_empty_channel_witness :
    fetch_videos 0 "chan" 50
        [Except.ok { items := some [], nextPageToken := none }] =
      ([mkRequest "chan" (get_date_range 0).1 (get_date_range 0).2 50 none],
       []) :=
  fetch_videos_empty_channel 0 "chan" 50
    { items := some [], nextPageToken := none } rfl rfl

/-- C8: A response whose continuation cursor is the empty string terminates
pagination exactly as if the cursor were absent — the loop's behaviour on
`some ""` and on `none` coincides — and an empty-string cursor is never sent
on any request, because only a truthy token is copied into the request
parameters. -/
theorem fetchLoop_empty_string_token (cid pa pb : String) (m : Nat)
    (r : SearchResponse) (h : r.nextPageToken = some "") :
    (∀ rest token,
      fetchLoop cid pa pb m (.ok r :: rest) token =
        fetchLoop cid pa pb m
          (.ok { r with nextPageToken := none } :: rest) token) ∧
    (∀ script token req, req ∈ (fetchLoop cid pa pb m script token).1 →
      req.pageToken ≠ some "") := by
  constructor
  · intro rest token
    cases hp : processVideoItems (r.items.getD []) with
    | error e => simp [fetchLoop, hp]
    | ok page => simp [fetchLoop, hp, h, tokenTruthy]
  · intro script token req hreq
    obtain ⟨tk, rfl⟩ := fetchLoop_requests cid pa pb m script token req hreq
    exact mkRequest_pageToken_ne_empty cid pa pb m tk

/-- Witness for C8: a concrete response carrying the empty-string cursor. -/
theorem fetchLoop_empty_string_token_witness :
    (∀ rest token,
      fetchLoop "chan" "a" "b" 50
          (.ok { items := some [], nextPageToken := some "" } :: rest) token =
        fetchLoop "chan" "a" "b" 50
          (.ok { items := some [], nextPageToken := none } :: rest) token) ∧
    (∀ script token req,
      req ∈ (fetchLoop "chan" "a" "b" 50 script token).1 →
      req.pageToken ≠ some "") :=
  fetchLoop_empty_string_token "chan" "a" "b" 50
    { items := some [], nextPageToken := some "" } rfl

/-- C9: A successful response lacking the `items` list entirely is treated as
a page of zero items — the loop behaves exactly as on an explicit empty
list, appending nothing — and continuation is decided by the cursor alone. -/
theorem fetchLoop_missing_items (cid pa pb : String) (m : Nat)
    (r : SearchResponse) (h : r.items = none) :
    ∀ rest token,
      fetchLoop cid pa pb m (.ok r :: rest) token =
        fetchLoop cid pa pb m (.ok { r with items := some [] } :: rest) token ∧
      (fetchLoop cid pa pb m (.ok r :: rest) token).2 =
        (if tokenTruthy r.nextPageToken then
          (fetchLoop cid pa pb m rest r.nextPageToken).2
        else []) := by
  intro rest token
  constructor
  · simp [fetchLoop, h, processVideoItems]
  · cases htt : tokenTruthy r.nextPageToken <;>
      simp [fetchLoop, h, htt, processVideoItems]

/-- Witness for C9: a concrete response with no `items` key. -/
theorem fetchLoop_missing_items_witness :
    fetchLoop "chan" "a" "b" 50
        [.ok { items := none, nextPageToken := none }] none =
      fetchLoop "chan" "a" "b" 50
        [.ok { items := some [], nextPageToken := none }] none ∧
    (fetchLoop "chan" "a" "b" 50
        [.ok { items := none, nextPageToken := none }] none).2 =
      (if tokenTruthy (none : Option String) then
        (fetchLoop "chan" "a" "b" 50 [] none).2
      else []) :=
  fetchLoop_missing_items "chan" "a" "b" 50
    { items := none, nextPageToken := none } rfl [] none

/-- C10: If any single item on page `k` lacks a required key, so that the
page's normalization raises, `fetch_videos` returns exactly the records of
pages 1 through `k-1`: the entire failing page — its well-formed items
before the bad one included — is discarded, the loop stops after its `k`
requests, and no error is signalled to the caller. -/
theorem fetch_videos_bad_page (now : Nat) (channel_id : String)
    (max_results_per_page : Nat)
    (good : List (SearchResponse × List VideoData)) (rBad : SearchResponse)
    (pre post : List RawItem) (bad : RawItem) (rest : List CallResult)
    (h : ∀ p ∈ good, tokenTruthy p.1.nextPageToken = true ∧
      processVideoItems (p.1.items.getD []) = .ok p.2)
    (hitems : rBad.items = some (pre ++ bad :: post))
    (hbad : processVideoItem bad = .error ()) :
    (fetch_videos now channel_id max_results_per_page
        (good.map (fun p => Except.ok p.1) ++ .ok rBad :: rest)).2 =
      (good.map Prod.snd).flatten ∧
    (fetch_videos now channel_id max_results_per_page
        (good.map (fun p => Except.ok p.1) ++ .ok rBad :: rest)).1.length =
      good.length + 1 := by
  have hpage : processVideoItems (rBad.items.getD []) = .error () := by
    rw [hitems]
    exact processVideoItems_error pre post bad hbad
  unfold fetch_videos
  rw [fetchLoop_goodRun _ _ _ _ _ _ _ h,
    fetchLoop_processing_error _ _ _ _ _ _ _ hpage]
  simp [goodRequests_length]

/-- Witness for C10: a good page, then a page whose second item lacks its
title; only the good page's record is returned, after two requests. -/
theorem fetch_videos_bad_page_witness :
    (fetch_videos 0 "chan" 50
        [Except.ok { items := some [sampleItem], nextPageToken := some "t1" },
         Except.ok { items := some [sampleItem, badItem],
                     nextPageToken := none }]).2 = [sampleVideo] ∧
    (fetch_videos 0 "chan" 50
        [Except.ok { items := some [sampleItem], nextPageToken := some "t1" },
         Except.ok { items := some [sampleItem, badItem],
                     nextPageToken := none }]).1.length = 2 := by
  have h := fetch_videos_bad_page 0 "chan" 50
    [({ items := some [sampleItem], nextPageToken := some "t1" },
      [sampleVideo])]
    { items := some [sampleItem, badItem], nextPageToken := none }
    [sampleItem] [] badItem []
    (by
      intro p hp
      rw [List.mem_singleton] at hp
      subst hp
      exact ⟨rfl, rfl⟩)
    rfl rfl
  simpa using h

/-- C4: The normalized record's `video_url` is a pure function of the item's
video identifier alone: whenever normalization succeeds it equals the
canonical watch URL built from `id.videoId`. -/
theorem processVideoItem_url (item : RawItem) (io : IdObj) (vid : String)
    (v : VideoData) (hid : item.id = some io) (hvid : io.videoId = some vid)
    (hok : processVideoItem item = .ok v) :
    v.video_url = "https://www.youtube.com/watch?v=" ++ vid := by
  obtain ⟨hbind, hurl⟩ := processVideoItem_shape item v hok
  rw [hid, Option.some_bind, hvid] at hbind
  rw [hurl, ← Option.some_inj.mp hbind]

/-- Witness for C4: the item with `id.videoId = "abc123"` yields exactly
`https://www.youtube.com/watch?v=abc123`. -/
theorem processVideoItem_url_witness :
    sampleVideo.video_url = "https://www.youtube.com/watch?v=abc123" := by
  have h := processVideoItem_url sampleItem { videoId := some "abc123" }
    "abc123" sampleVideo rfl rfl rfl
  exact h.trans rfl

/-- C6: For every raw item whose nested `thumbnails.default.url` is absent —
either no `default` entry, or no `url` inside it — normalization succeeds and
the record's `thumbnail_url` is the empty string rather than a failure. -/
theorem processVideoItem_missing_thumbnail (item : RawItem) (io : IdObj)
    (vid : String) (sn : Snippet) (ti de pu ch : String) (th : ThumbMap)
    (hid : item.id = some io) (hvid : io.videoId = some vid)
    (hsn : item.snippet = some sn) (hti : sn.title = some ti)
    (hde : sn.description = some de) (hpu : sn.publishedAt = some pu)
    (hch : sn.channelTitle = some ch) (hth : sn.thumbnails = some th)
    (hdef : th.default = none ∨ ∃ e, th.default = some e ∧ e.url = none) :
    ∃ v, processVideoItem item = .ok v ∧ v.thumbnail_url = "" := by
  refine ⟨_, processVideoItem_ok item io vid sn ti de pu ch th
    hid hvid hsn hti hde hpu hch hth, ?_⟩
  rcases hdef with hnone | ⟨entry, he, hurl⟩
  · simp [hnone]
  · simp [he, hurl]

/-- Witness for C6: a concrete item with no `default` thumbnail entry. -/
theorem processVideoItem_missing_thumbnail_witness :
    ∃ v, processVideoItem
      { id := some { videoId := some "abc123" }
        snippet := some
          { title := some "Title"
            description := some "Desc"
            publishedAt := some "2025-01-01T00:00:00Z"
            channelTitle := some "Chan"
            thumbnails := some { default := none } } } = .ok v ∧
      v.thumbnail_url = "" :=
  processVideoItem_missing_thumbnail
    { id := some { videoId := some "abc123" }
      snippet := some
        { title := some "Title"
          description := some "Desc"
          publishedAt := some "2025-01-01T00:00:00Z"
          channelTitle := some "Chan"
          thumbnails := some { default := none } } }
    { videoId := some "abc123" } "abc123"
    { title := some "Title"
      description := some "Desc"
      publishedAt := some "2025-01-01T00:00:00Z"
      channelTitle := some "Chan"
      thumbnails := some { default := none } }
    "Title" "Desc" "2025-01-01T00:00:00Z" "Chan" { default := none }
    rfl rfl rfl rfl rfl rfl rfl rfl (Or.inl rfl)

/-- C7: Normalization is total on any raw item carrying all required keys
(`id.videoId`, `snippet.title`, `snippet.description`, `snippet.publishedAt`,
`snippet.channelTitle`, and a `snippet.thumbnails` mapping): it succeeds
without reaching any error branch; absence of a required key lies outside
this precondition and is not defensively validated. -/
theorem processVideoItem_total (item : RawItem) (io : IdObj) (vid : String)
    (sn : Snippet) (ti de pu ch : String) (th : ThumbMap)
    (hid : item.id = some io) (hvid : io.videoId = some vid)
    (hsn : item.snippet = some sn) (hti : sn.title = some ti)
    (hde : sn.description = some de) (hpu : sn.publishedAt = some pu)
    (hch : sn.channelTitle = some ch) (hth : sn.thumbnails = some th) :
    (processVideoItem item).isOk = true := by
  rw [processVideoItem_ok item io vid sn ti de pu ch th
    hid hvid hsn hti hde hpu hch hth]
  rfl

/-- Witness for C7: the fully populated sample item normalizes successfully. -/
theorem processVideoItem_total_witness :
    (processVideoItem sampleItem).isOk = true :=
  processVideoItem_total sampleItem { videoId := some "abc123" } "abc123"
    { title := some "Title"
      description := some "Desc"
      publishedAt := some "2025-01-01T00:00:00Z"
      channelTitle := some "Chan"
      thumbnails := some { default := some { url := some "http://th" } } }
    "Title" "Desc" "2025-01-01T00:00:00Z" "Chan"
    { default := some { url := some "http://th" } }
    rfl rfl rfl rfl rfl rfl rfl rfl

/-- C3: For any fixed wall-clock instant `now` representable by the calendar
(so `now - 365` days does not underflow the epoch and the year has at most
four digits, as Python `datetime` itself requires), `_get_date_range`
returns the pair `(after, before)` with `before` the rendering of `now` and
`after` the rendering of `now` minus 365 days, both serialized in the wire
format `%Y-%m-%dT%H:%M:%SZ` — date-time with seconds precision and the
trailing literal zone marker — and `after < before` holds. -/
theorem get_date_range_correct (now : Nat) (h365 : 365 * 86400 ≤ now)
    (hy : (dateOf now).year ≤ 9999) :
    (get_date_range now).1 = formatTimestamp (now - 365 * 86400) ∧
    (get_date_range now).2 = formatTimestamp now ∧
    (get_date_range now).1 < (get_date_range now).2 := by
  refine ⟨rfl, rfl, ?_⟩
  exact formatTimestamp_lt _ _ (by omega) hy

/-- Witness for C3 at the instant 1971-01-01T00:00:00. -/
theorem get_date_range_correct_witness :
    365 * 86400 ≤ 31536000 ∧ (dateOf 31536000).year ≤ 9999 ∧
    ((get_date_range 31536000).1 = formatTimestamp (31536000 - 365 * 86400) ∧
     (get_date_range 31536000).2 = formatTimestamp 31536000 ∧
     (get_date_range 31536000).1 < (get_date_range 31536000).2) :=
  ⟨by norm_num,
   by
     have hle := dateOfDays_year_le (31536000 / 86400)
     unfold dateOf
     omega,
   get_date_range_correct 31536000 (by norm_num)
     (by
       have hle := dateOfDays_year_le (31536000 / 86400)
       unfold dateOf
       omega)⟩

end VideoPoc
